import Mathlib

/-!
Shallow embedding of the forecast pipeline of `Weather_dashboard_main.py`
(Ryan05614/Weather-Dashboard).  Python floats that are merely carried through
the pipeline (temperatures, wind speeds, precipitation probabilities,
coordinates) are modelled as rationals; JSON absence (`None` / missing key)
is modelled with `Option`; a raised Python exception is modelled by
`Except.error`.
-/

/-- Model of a Python `datetime` value restricted to the fields the program
reads (year, month, day, hour, minute, second). -/
structure PyDateTime where
  year : Nat
  month : Nat
  day : Nat
  hour : Nat
  minute : Nat
  second : Nat
deriving DecidableEq, Repr

/-- Numeric value of a decimal digit character. -/
def digVal (c : Char) : Nat := c.toNat - 48

/-- Parse two decimal digit characters into a number. -/
def parse2 (a b : Char) : Option Nat :=
  if a.isDigit && b.isDigit then some (10 * digVal a + digVal b) else none

/-- Parse four decimal digit characters into a number. -/
def parse4 (a b c d : Char) : Option Nat :=
  if a.isDigit && b.isDigit && c.isDigit && d.isDigit then
    some (1000 * digVal a + 100 * digVal b + 10 * digVal c + digVal d)
  else none

/-- Gregorian leap-year rule, as used by Python's `datetime`. -/
def isLeap (y : Nat) : Bool := (y % 4 == 0 && y % 100 != 0) || y % 400 == 0

/-- Number of days in a month, as validated by Python's `datetime`. -/
def daysInMonth (y m : Nat) : Nat :=
  if m = 2 then (if isLeap y then 29 else 28)
  else if m = 4 ∨ m = 6 ∨ m = 9 ∨ m = 11 then 30
  else 31

/-- Build a `PyDateTime` after the range checks `datetime` performs;
out-of-range fields raise `ValueError` in Python, i.e. yield `none`. -/
def mkDateTime (y m d hh mm ss : Nat) : Option PyDateTime :=
  if 1 ≤ y ∧ 1 ≤ m ∧ m ≤ 12 ∧ 1 ≤ d ∧ d ≤ daysInMonth y m ∧ hh ≤ 23 ∧ mm ≤ 59 ∧ ss ≤ 59
  then some ⟨y, m, d, hh, mm, ss⟩ else none

/-- Character-level grammar of `datetime.fromisoformat`, restricted to the
shapes the Open-Meteo API produces: `YYYY-MM-DD`, `YYYY-MM-DD?HH:MM` and
`YYYY-MM-DD?HH:MM:SS` with `?` a `T` or a space.  Every other string fails
(raises `ValueError` in Python). -/
def fromisoformatChars : List Char → Option PyDateTime
  | [a, b, c, d, '-', e, f, '-', g, h] =>
    (parse4 a b c d).bind fun y =>
      (parse2 e f).bind fun m =>
        (parse2 g h).bind fun dd => mkDateTime y m dd 0 0 0
  | [a, b, c, d, '-', e, f, '-', g, h, sep, i, j, ':', k, l] =>
    if sep = 'T' ∨ sep = ' ' then
      (parse4 a b c d).bind fun y =>
        (parse2 e f).bind fun m =>
          (parse2 g h).bind fun dd =>
            (parse2 i j).bind fun hh =>
              (parse2 k l).bind fun mm => mkDateTime y m dd hh mm 0
    else none
  | [a, b, c, d, '-', e, f, '-', g, h, sep, i, j, ':', k, l, ':', p, q] =>
    if sep = 'T' ∨ sep = ' ' then
      (parse4 a b c d).bind fun y =>
        (parse2 e f).bind fun m =>
          (parse2 g h).bind fun dd =>
            (parse2 i j).bind fun hh =>
              (parse2 k l).bind fun mm =>
                (parse2 p q).bind fun ss => mkDateTime y m dd hh mm ss
    else none
  | _ => none

/-- `datetime.fromisoformat` on a string; `none` models a raised
`ValueError`. -/
def fromisoformat (s : String) : Option PyDateTime := fromisoformatChars s.data

/-- Two-digit zero padding, as in `date.isoformat`. -/
def pad2 (n : Nat) : String := if n < 10 then "0" ++ toString n else toString n

/-- Four-digit zero padding for the year, as in `date.isoformat`. -/
def pad4 (n : Nat) : String :=
  if n < 10 then "000" ++ toString n
  else if n < 100 then "00" ++ toString n
  else if n < 1000 then "0" ++ toString n
  else toString n

/-- `dt.date().isoformat()`: the `YYYY-MM-DD` rendering of the date part. -/
def isoformat (dt : PyDateTime) : String :=
  pad4 dt.year ++ "-" ++ pad2 dt.month ++ "-" ++ pad2 dt.day

/-- Python `str.lstrip("0")`: drop every leading `0` character. -/
def lstripZeros (s : String) : String := String.mk (s.data.dropWhile (· == '0'))

/-- `dt.strftime("%I:%M %p").lstrip("0")`: 12-hour clock with the leading
zero stripped, exactly as the hourly rows are formatted. -/
def strftimeClock (dt : PyDateTime) : String :=
  let h12 := if dt.hour % 12 = 0 then 12 else dt.hour % 12
  lstripZeros (pad2 h12 ++ ":" ++ pad2 dt.minute ++ " " ++ (if dt.hour < 12 then "AM" else "PM"))

/-- Day of week (0 = Sunday) by Sakamoto's method, matching Python's
calendar for all Gregorian dates. -/
def dayOfWeekSun (y m d : Nat) : Nat :=
  let t := [0, 3, 2, 5, 0, 3, 5, 1, 4, 6, 2, 4]
  let y2 := if m < 3 then y - 1 else y
  (y2 + y2 / 4 - y2 / 100 + y2 / 400 + t.getD (m - 1) 0 + d) % 7

/-- `dt.strftime("%a")`: three-letter weekday abbreviation. -/
def strftimeAbbrev (dt : PyDateTime) : String :=
  (["Sun", "Mon", "Tue", "Wed", "Thu", "Fri", "Sat"]).getD (dayOfWeekSun dt.year dt.month dt.day) ""

/-- `dt.strftime("%A")`: full weekday name. -/
def strftimeFull (dt : PyDateTime) : String :=
  (["Sunday", "Monday", "Tuesday", "Wednesday", "Thursday", "Friday",
    "Saturday"]).getD (dayOfWeekSun dt.year dt.month dt.day) ""

/-- Round to the nearest integer, ties to even, as Python's `format(x, '.0f')`
does for exactly representable values. -/
def roundHalfEven (q : ℚ) : Int :=
  let f := q.floor
  let r := q - f
  if r < 1 / 2 then f
  else if 1 / 2 < r then f + 1
  else if f % 2 = 0 then f else f + 1

/-- The `f"{x:.0f}"` formatting used for all displayed numbers. -/
def formatF0 (q : ℚ) : String := toString (roundHalfEven q)

/-- Python `str.title()` restricted to the single lowercase words the
classifier produces: capitalize the first character. -/
def pyTitle (s : String) : String :=
  match s.data with
  | [] => ""
  | c :: rest => String.mk (c.toUpper :: rest)

/-- Whether a character is stripped by Python `str.strip()`. -/
def isPySpace (c : Char) : Bool :=
  c == ' ' || c == '\t' || c == '\n' || c == '\r' || c == '\x0b' || c == '\x0c'

/-- Python `str.strip()`: drop whitespace from both ends. -/
def pyStrip (s : String) : String :=
  String.mk (((s.data.dropWhile isPySpace).reverse.dropWhile isPySpace).reverse)

/-- `WeatherApp._condition_from_code`, translated clause by clause. -/
def condition_from_code (code : Int) : String :=
  if code = 0 then "clear"
  else if code = 1 ∨ code = 2 ∨ code = 3 then "clouds"
  else if code = 45 ∨ code = 48 then "fog"
  else if 51 ≤ code ∧ code ≤ 67 then (if code < 61 then "drizzle" else "rain")
  else if 71 ≤ code ∧ code ≤ 77 then "snow"
  else if 80 ≤ code ∧ code ≤ 82 then "showers"
  else if 95 ≤ code ∧ code ≤ 99 then "storm"
  else "default"

/-- The classification table as the specification words it: one bucket per
listed range, `default` outside all ranges.  Used only to compare against
`condition_from_code`. -/
def classifySpec (code : Int) : String :=
  if code = 0 then "clear"
  else if code = 1 ∨ code = 2 ∨ code = 3 then "clouds"
  else if code = 45 ∨ code = 48 then "fog"
  else if 51 ≤ code ∧ code ≤ 60 then "drizzle"
  else if 61 ≤ code ∧ code ≤ 67 then "rain"
  else if 71 ≤ code ∧ code ≤ 77 then "snow"
  else if 80 ≤ code ∧ code ≤ 82 then "showers"
  else if 95 ≤ code ∧ code ≤ 99 then "storm"
  else "default"

/-- One row of the hourly table. -/
structure HourlyRow where
  time : String
  temp : ℚ
  precip : ℚ
  wind : ℚ
deriving DecidableEq, Repr

/-- The row dictionary built for a kept hourly entry at source index `i`:
`float(temps[i]) if i < len(temps) else 0.0` and likewise for the other
arrays, with `precs[i] or 0.0` treating a JSON `null` as `0.0`. -/
def mkRow (temps : List ℚ) (precs : List (Option ℚ)) (winds : List ℚ)
    (i : Nat) (dt : PyDateTime) : HourlyRow :=
  { time := strftimeClock dt
    temp := temps.getD i 0
    precip :=
      match precs.get? i with
      | some (some v) => v
      | some none => 0
      | none => 0
    wind := winds.getD i 0 }

/-- The `for i, t in enumerate(times)` loop of `_handle_forecast`, started at
index `i`: returns the kept rows together with the `spark_vals` accumulator.
An unparseable timestamp or a date different from `today` is skipped
(`continue`); for a kept entry the row is appended and, when `i` is in range
of the temperature array, the temperature is appended to `spark_vals`. -/
def buildRowsFrom (today : String) (temps : List ℚ) (precs : List (Option ℚ))
    (winds : List ℚ) : Nat → List String → List HourlyRow × List ℚ
  | _, [] => ([], [])
  | i, t :: rest =>
    match fromisoformat t with
    | none => buildRowsFrom today temps precs winds (i + 1) rest
    | some dt =>
      if isoformat dt = today then
        let r := buildRowsFrom today temps precs winds (i + 1) rest
        (mkRow temps precs winds i dt :: r.1,
         (if i < temps.length then [temps.getD i 0] else []) ++ r.2)
      else buildRowsFrom today temps precs winds (i + 1) rest

/-- The hourly loop of `_handle_forecast` over the whole `time` array. -/
def buildRows (today : String) (temps : List ℚ) (precs : List (Option ℚ))
    (winds : List ℚ) (times : List String) : List HourlyRow × List ℚ :=
  buildRowsFrom today temps precs winds 0 times

/-- The argument passed to `self.spark.set_points`:
`[r["temp"] for r in rows] if rows else spark_vals`. -/
def trendSeries (rows : List HourlyRow) (sparkVals : List ℚ) : List ℚ :=
  if rows.isEmpty then sparkVals else rows.map HourlyRow.temp

/-- Whether an hourly timestamp is kept by the date filter: it parses and its
date part equals the reference date. -/
def keepTime (today : String) (t : String) : Bool :=
  match fromisoformat t with
  | some dt => isoformat dt = today
  | none => false

/-- One card of the 5-day strip. -/
structure DailyCard where
  date : String
  max : ℚ
  min : ℚ
  code : Int
deriving DecidableEq, Repr

/-- The body of the `for i in range(min(5, len(d_dates)))` loop of
`_handle_forecast`, run over an explicit list of indices.
`datetime.fromisoformat(d_dates[i])` has no tolerant fallback: a parse
failure raises, modelled as `Except.error ()`, and no cards are produced. -/
def buildDailyGo (dates : List String) (dmax dmin : List ℚ) (dcode : List Int) :
    List Nat → Except Unit (List DailyCard)
  | [] => Except.ok []
  | i :: rest =>
    match fromisoformat (dates.getD i "") with
    | none => Except.error ()
    | some dt =>
      match buildDailyGo dates dmax dmin dcode rest with
      | Except.error e => Except.error e
      | Except.ok cs =>
        Except.ok ({ date := strftimeAbbrev dt
                     max := dmax.getD i 0
                     min := dmin.getD i 0
                     code := dcode.getD i 0 } :: cs)

/-- The daily-card loop of `_handle_forecast`. -/
def buildDaily (dates : List String) (dmax dmin : List ℚ) (dcode : List Int) :
    Except Unit (List DailyCard) :=
  buildDailyGo dates dmax dmin dcode (List.range (min 5 dates.length))

/-- The `current_weather` block; every field may be absent. -/
structure CurrentWeather where
  temperature : Option ℚ
  windspeed : Option ℚ
  weathercode : Option Int
deriving DecidableEq, Repr

/-- The `hourly` block of parallel arrays; a missing key yields `[]` via
`hourly.get(key, [])`. -/
structure HourlyBlock where
  time : List String
  temperature_2m : List ℚ
  precipitation_probability : List (Option ℚ)
  windspeed_10m : List ℚ
deriving DecidableEq, Repr

/-- The `daily` block of parallel arrays. -/
structure DailyBlock where
  time : List String
  weathercode : List Int
  temperature_2m_max : List ℚ
  temperature_2m_min : List ℚ
deriving DecidableEq, Repr

/-- A forecast payload that parsed as JSON; each top-level block may be
missing, in which case `payload.get(...) or {}` substitutes an empty dict. -/
structure ForecastPayload where
  current_weather : Option CurrentWeather
  hourly : Option HourlyBlock
  daily : Option DailyBlock
deriving DecidableEq, Repr

/-- The display-ready aggregate produced by a completed `_handle_forecast`
run: header and subheader text, hourly rows, sparkline series, daily cards. -/
structure ViewModel where
  header : String
  subheader : String
  rows : List HourlyRow
  trend : List ℚ
  daily : List DailyCard
deriving DecidableEq, Repr

/-- `WeatherApp._handle_forecast` as a function of the parsed payload, the
unit letter from preferences and today's date.  Missing blocks default via
`or {}` / `.get(key, default)`; an uncaught exception from the daily loop is
`Except.error`, in which case no view model is produced. -/
def handle_forecast (payload : ForecastPayload) (unit_letter : String)
    (today : PyDateTime) : Except Unit ViewModel :=
  let current := payload.current_weather.getD ⟨none, none, none⟩
  let hourly := payload.hourly.getD ⟨[], [], [], []⟩
  let daily := payload.daily.getD ⟨[], [], [], []⟩
  let temp := current.temperature.getD 0
  let wind := current.windspeed.getD 0
  let code := current.weathercode.getD 0
  let cond := condition_from_code code
  let header := formatF0 temp ++ "°" ++ unit_letter ++ " — " ++ pyTitle cond
  let subheader := "Wind: " ++ formatF0 wind ++ " "
    ++ (if unit_letter = "F" then "mph" else "km/h") ++ "  |  " ++ strftimeFull today
  let rs := buildRows (isoformat today) hourly.temperature_2m
    hourly.precipitation_probability hourly.windspeed_10m hourly.time
  match buildDaily daily.time daily.temperature_2m_max daily.temperature_2m_min
      daily.weathercode with
  | Except.error e => Except.error e
  | Except.ok cards =>
    Except.ok ⟨header, subheader, rs.1, trendSeries rs.1 rs.2, cards⟩

/-- Whether a forecast-stage run completed and produced a view model. -/
def producesReady (e : Except Unit ViewModel) : Bool :=
  match e with
  | Except.ok _ => true
  | Except.error _ => false

/-- One entry of the geocode `results` array. -/
structure GeoResult where
  latitude : ℚ
  longitude : ℚ
  name : Option String
  admin1 : Option String
  country : Option String
deriving DecidableEq, Repr

/-- Outcome of `_handle_geocode`: either the not-found message box (and the
fetch button re-enabled, no forecast request), or a forecast request for the
first result. -/
inductive GeocodeOutcome where
  | notFound
  | forecastRequest (lat lon : ℚ) (place : String)
deriving DecidableEq, Repr

/-- `", ".join([p for p in (name, admin1, country) if p])`: falsy parts
(`None` and the empty string) are omitted. -/
def joinPlace (name admin1 country : Option String) : String :=
  String.intercalate ", " ((([name, admin1, country]).filterMap id).filter (fun p => p ≠ ""))

/-- `WeatherApp._handle_geocode`.  The argument is `payload.get("results")`
as delivered by `_on_reply`: `none` covers an unparseable reply body (which
`_on_reply` turns into `{}`) as well as a missing or null `results` key, and
`payload.getD []` renders the `or []` fallback. -/
def handle_geocode (results : Option (List GeoResult)) : GeocodeOutcome :=
  match results.getD [] with
  | [] => GeocodeOutcome.notFound
  | r0 :: _ =>
    GeocodeOutcome.forecastRequest r0.latitude r0.longitude
      (joinPlace r0.name r0.admin1 r0.country)

/-- Outcome of `WeatherApp.fetch`: either the validation message box (and an
immediate return, before any network call), or a geocode request for the
trimmed name. -/
inductive FetchOutcome where
  | validationError
  | geocodeRequest (name : String)
deriving DecidableEq, Repr

/-- `WeatherApp.fetch` on the text of the city field. -/
def fetch (cityText : String) : FetchOutcome :=
  let name := pyStrip cityText
  if name = "" then FetchOutcome.validationError else FetchOutcome.geocodeRequest name

/-- `WeatherApp._fav_add` on the favorites list and the city-field text. -/
def fav_add (favs : List String) (cityText : String) : List String :=
  let c := pyStrip cityText
  if c = "" then favs
  else if c ∈ favs then favs
  else favs ++ [c]

/-- `WeatherApp._fav_remove` on the favorites list and the selected text;
`list.remove` deletes the first occurrence. -/
def fav_remove (favs : List String) (currentText : String) : List String :=
  let c := pyStrip currentText
  if c = "" then favs
  else if c ∈ favs then favs.erase c
  else favs

/-- C4: `condition_from_code` is a total deterministic function on the
integers that agrees everywhere with the table of the specification (clear
for 0, clouds for 1-3, fog for 45 and 48, drizzle for 51-60, rain for 61-67,
snow for 71-77, showers for 80-82, storm for 95-99, default otherwise),
and in particular returns `default` at 100 and at -5. -/
theorem c4_classify_total :
    (∀ code : Int, condition_from_code code = classifySpec code)
    ∧ condition_from_code 100 = "default" ∧ condition_from_code (-5) = "default" := by
  refine ⟨fun code => ?_, by decide, by decide⟩
  unfold condition_from_code classifySpec
  split_ifs <;> first | rfl | omega

/-- C7: a geocode reply whose body was unparseable (so `_on_reply` passed
`{}` on, rendered as `none`) or whose `results` list is empty makes the run
end in the not-found outcome, and no forecast request is issued. -/
theorem c7_geocode_notfound (results : Option (List GeoResult))
    (h : results = none ∨ results = some []) :
    handle_geocode results = GeocodeOutcome.notFound
    ∧ ∀ lat lon place, handle_geocode results ≠ GeocodeOutcome.forecastRequest lat lon place := by
  rcases h with h | h <;> subst h <;> exact ⟨rfl, fun _ _ _ hc => nomatch hc⟩

/-- C7 witness: the unparseable-payload case, concretely. -/
theorem c7_witness : handle_geocode none = GeocodeOutcome.notFound :=
  (c7_geocode_notfound none (Or.inl rfl)).1

/-- C8: a submitted city text that is empty after stripping is rejected as a
validation error, and no geocode request is ever issued for it. -/
theorem c8_empty_city (cityText : String) (h : pyStrip cityText = "") :
    fetch cityText = FetchOutcome.validationError
    ∧ ∀ name, fetch cityText ≠ FetchOutcome.geocodeRequest name := by
  refine ⟨?_, ?_⟩
  · simp [fetch, h]
  · intro name hc
    simp [fetch, h] at hc

/-- C8 witness: a whitespace-only submission, concretely. -/
theorem c8_witness : fetch "   " = FetchOutcome.validationError :=
  (c8_empty_city "   " (by decide)).1

/-- C9: favorites behave as an idempotent insertion-ordered set: adding a
name already present leaves the list unchanged, and removing a name not
present leaves the list unchanged. -/
theorem c9_favorites_idempotent (favs : List String) (text : String) :
    (pyStrip text ∈ favs → fav_add favs text = favs)
    ∧ (pyStrip text ∉ favs → fav_remove favs text = favs) := by
  constructor
  · intro h
    simp [fav_add, h]
  · intro h
    simp [fav_remove, h]

/-- C9 witness: adding an existing favorite and removing a non-member,
concretely. -/
theorem c9_witness :
    fav_add ["Miami"] "Miami" = ["Miami"] ∧ fav_remove ["Miami"] "Tampa" = ["Miami"] :=
  ⟨(c9_favorites_idempotent ["Miami"] "Miami").1 (by decide),
   (c9_favorites_idempotent ["Miami"] "Tampa").2 (by decide)⟩

/-- C10: the daily-card loop parses its date strings with no tolerant
fallback: on a payload whose second daily date is not ISO-formatted, the
loop raises (`Except.error`) and produces no daily cards, while the hourly
loop merely skips such a timestamp. -/
theorem c10_daily_strict_parse :
    fromisoformat "garbage-date" = none
    ∧ buildDaily
        ["2026-10-12", "garbage-date", "2026-10-13", "2026-10-14", "2026-10-15",
         "2026-10-16", "2026-10-17"]
        [1, 2, 3, 4, 5, 6, 7] [0, 1, 2, 3, 4, 5, 6] [0, 0, 0, 0, 0, 0, 0]
      = Except.error ()
    ∧ (buildRows "2026-10-12" [5] [] [] ["garbage-date"]).1 = [] :=
  ⟨rfl, rfl, rfl⟩

/-- C1: with an hourly payload whose single timestamp parses and has an
in-range temperature but lies on a different date than the reference date,
the code's trend series is empty: `spark_vals` is only ever appended to
after the date filter, so the fallback series coincides with the kept rows
and the sparkline receives `[]`, not the parsed temperature `[10]`. -/
theorem c1_trend_fallback_empty :
    (fromisoformat "2020-01-01T05:00").isSome = true
    ∧ (buildRows "2026-10-12" [10] [] [] ["2020-01-01T05:00"]).1 = []
    ∧ (buildRows "2026-10-12" [10] [] [] ["2020-01-01T05:00"]).2 = []
    ∧ trendSeries (buildRows "2026-10-12" [10] [] [] ["2020-01-01T05:00"]).1
        (buildRows "2026-10-12" [10] [] [] ["2020-01-01T05:00"]).2 = [] :=
  ⟨rfl, rfl, rfl, rfl⟩

/-- C2 counterexample: the forecast payload `{}` parses as JSON and lacks the
current_weather/hourly/daily blocks, yet the run completes and produces a
view model (the Ready outcome) instead of failing. -/
theorem c2_counterexample :
    producesReady (handle_forecast ⟨none, none, none⟩ "F" ⟨2026, 10, 12, 0, 0, 0⟩) = true := rfl

/-- C2 as amended: a forecast reply that parses as JSON but lacks the
current_weather, hourly and daily blocks is handled tolerantly: the missing
blocks default to empty, and the run produces a Ready view model with no
hourly rows, no trend points and no daily cards — no `MalformedData`
failure exists in the code. -/
theorem c2_missing_blocks_ready (unit_letter : String) (today : PyDateTime) :
    ∃ vm : ViewModel,
      handle_forecast ⟨none, none, none⟩ unit_letter today = Except.ok vm
      ∧ vm.rows = [] ∧ vm.trend = [] ∧ vm.daily = [] :=
  ⟨_, rfl, rfl, rfl, rfl⟩

/-- The kept-row count of the hourly loop equals the number of timestamps
that parse and fall on the reference date, for any start index. -/
theorem buildRowsFrom_length_eq (today : String) (temps : List ℚ)
    (precs : List (Option ℚ)) (winds : List ℚ) :
    ∀ (times : List String) (i : Nat),
      ((buildRowsFrom today temps precs winds i times).1).length
        = (times.filter (keepTime today)).length := by
  intro times
  induction times with
  | nil => intro i; rfl
  | cons t rest ih =>
    intro i
    cases hp : fromisoformat t with
    | none => simp [buildRowsFrom, keepTime, hp, ih]
    | some dt =>
      by_cases hd : isoformat dt = today
      · simp [buildRowsFrom, keepTime, hp, hd, ih]
      · simp [buildRowsFrom, keepTime, hp, hd, ih]

/-- The kept rows of the hourly loop are exactly the date-filtered entries of
the enumerated time array, in source order, for any start index. -/
theorem buildRowsFrom_fst_eq (today : String) (temps : List ℚ)
    (precs : List (Option ℚ)) (winds : List ℚ) :
    ∀ (times : List String) (i : Nat),
      (buildRowsFrom today temps precs winds i times).1
        = (times.enumFrom i).filterMap (fun p =>
            match fromisoformat p.2 with
            | none => none
            | some dt =>
              if isoformat dt = today then some (mkRow temps precs winds p.1 dt) else none) := by
  intro times
  induction times with
  | nil => intro i; rfl
  | cons t rest ih =>
    intro i
    cases hp : fromisoformat t with
    | none => simp [buildRowsFrom, List.enumFrom, hp, ih]
    | some dt =>
      by_cases hd : isoformat dt = today
      · simp [buildRowsFrom, List.enumFrom, hp, hd, ih]
      · simp [buildRowsFrom, List.enumFrom, hp, hd, ih]

/-- C3: when every hourly timestamp parses, the number of output rows equals
exactly the number of timestamps whose calendar date equals the reference
date, and the rows are exactly the date-filtered enumerated entries in
source order (so no row from another date ever appears). -/
theorem c3_hourly_filter (times : List String) (temps : List ℚ)
    (precs : List (Option ℚ)) (winds : List ℚ) (today : String)
    (hparse : ∀ t ∈ times, (fromisoformat t).isSome) :
    ((buildRows today temps precs winds times).1).length
      = (times.filter (keepTime today)).length
    ∧ (buildRows today temps precs winds times).1
      = (times.enum).filterMap (fun p =>
          match fromisoformat p.2 with
          | none => none
          | some dt =>
            if isoformat dt = today then some (mkRow temps precs winds p.1 dt) else none) := by
  refine ⟨buildRowsFrom_length_eq today temps precs winds times 0, ?_⟩
  have h := buildRowsFrom_fst_eq today temps precs winds times 0
  simpa [buildRows, List.enum] using h

/-- C3 witness: a two-day hourly payload whose timestamps all parse. -/
theorem c3_witness :
    ((buildRows "2026-10-12" [1, 2] [] [] ["2026-10-12T01:00", "2026-10-13T01:00"]).1).length
      = ((["2026-10-12T01:00", "2026-10-13T01:00"] : List String).filter
          (keepTime "2026-10-12")).length :=
  (c3_hourly_filter ["2026-10-12T01:00", "2026-10-13T01:00"] [1, 2] [] [] "2026-10-12"
    (by decide)).1

/-- C5: for a kept hourly entry whose index is beyond the end of the
temperature, precipitation or wind array, the corresponding row field is 0
and no error is raised; in particular a today-only time array of length 5
with a temperature array of length 3 yields temperatures 0 at indices 3
and 4. -/
theorem c5_short_arrays :
    (∀ (temps : List ℚ) (precs : List (Option ℚ)) (winds : List ℚ) (i : Nat) (dt : PyDateTime),
        (temps.length ≤ i → (mkRow temps precs winds i dt).temp = 0)
        ∧ (precs.length ≤ i → (mkRow temps precs winds i dt).precip = 0)
        ∧ (winds.length ≤ i → (mkRow temps precs winds i dt).wind = 0))
    ∧ (buildRows "2026-10-12" [20, 21, 22] [] []
        ["2026-10-12T00:00", "2026-10-12T01:00", "2026-10-12T02:00", "2026-10-12T03:00",
         "2026-10-12T04:00"]).1.map HourlyRow.temp = [20, 21, 22, 0, 0] := by
  constructor
  · intro temps precs winds i dt
    refine ⟨fun h => ?_, fun h => ?_, fun h => ?_⟩
    · simp [mkRow, List.getElem?_eq_none h]
    · simp [mkRow, List.getElem?_eq_none h]
    · simp [mkRow, List.getElem?_eq_none h]
  · decide

/-- C5 witness: the general out-of-range clause at a concrete input. -/
theorem c5_witness :
    (mkRow [] [] [] 0 ⟨2026, 10, 12, 0, 0, 0⟩).temp = 0 :=
  (c5_short_arrays.1 [] [] [] 0 ⟨2026, 10, 12, 0, 0, 0⟩).1 (by decide)

/-- The daily loop over a list of indices whose date strings all parse
produces exactly one card per index, in order, with `getD`-substituted
values. -/
theorem buildDailyGo_ok (dates : List String) (dmax dmin : List ℚ) (dcode : List Int) :
    ∀ (l : List Nat), (∀ i ∈ l, (fromisoformat (dates.getD i "")).isSome) →
      buildDailyGo dates dmax dmin dcode l
        = Except.ok (l.map (fun i =>
            { date := strftimeAbbrev ((fromisoformat (dates.getD i "")).getD ⟨1, 1, 1, 0, 0, 0⟩)
              max := dmax.getD i 0
              min := dmin.getD i 0
              code := dcode.getD i 0 })) := by
  intro l
  induction l with
  | nil => intro _; rfl
  | cons i rest ih =>
    intro h
    obtain ⟨dt, hdt⟩ := Option.isSome_iff_exists.mp (h i (by simp))
    have hrest := ih (fun j hj => h j (by simp [hj]))
    have hdt2 := hdt
    rw [List.getD_eq_getElem?_getD] at hdt2
    simp [buildDailyGo, hdt, hdt2, hrest]

/-- C6 counterexample: a daily payload with 7 entries whose second date
string is not ISO-formatted produces no cards at all (the loop raises),
not `min(5, 7) = 5` cards. -/
theorem c6_counterexample :
    buildDaily
        ["2026-10-12", "bogus", "2026-10-14", "2026-10-15", "2026-10-16", "2026-10-17",
         "2026-10-18"]
        [1, 2, 3, 4, 5, 6, 7] [0, 0, 0, 0, 0, 0, 0] [0, 0, 0, 0, 0, 0, 0]
      = Except.error () := rfl

/-- C6 as amended: for every daily payload whose first `min(5, len(time))`
date strings parse, exactly `min(5, len(time))` daily cards are produced,
taken from indices 0 upward in order, with 0 substituted when the
max/min/code arrays are shorter than the index. -/
theorem c6_daily_truncation (dates : List String) (dmax dmin : List ℚ) (dcode : List Int)
    (hp : ∀ i, i < min 5 dates.length → (fromisoformat (dates.getD i "")).isSome) :
    buildDaily dates dmax dmin dcode
      = Except.ok ((List.range (min 5 dates.length)).map (fun i =>
          { date := strftimeAbbrev ((fromisoformat (dates.getD i "")).getD ⟨1, 1, 1, 0, 0, 0⟩)
            max := dmax.getD i 0
            min := dmin.getD i 0
            code := dcode.getD i 0 })) :=
  buildDailyGo_ok dates dmax dmin dcode (List.range (min 5 dates.length))
    (fun i hi => hp i (List.mem_range.mp hi))

/-- C6 witness: 7 parseable daily entries yield exactly the 5 cards of
indices 0-4. -/
theorem c6_witness :
    buildDaily
        ["2026-10-12", "2026-10-13", "2026-10-14", "2026-10-15", "2026-10-16", "2026-10-17",
         "2026-10-18"]
        [70, 71, 72, 73, 74, 75, 76] [50, 51, 52, 53, 54, 55, 56] [0, 1, 2, 3, 45, 61, 71]
      = Except.ok
          [⟨"Mon", 70, 50, 0⟩, ⟨"Tue", 71, 51, 1⟩, ⟨"Wed", 72, 52, 2⟩, ⟨"Thu", 73, 53, 3⟩,
           ⟨"Fri", 74, 54, 45⟩] := by
  have h := c6_daily_truncation
    ["2026-10-12", "2026-10-13", "2026-10-14", "2026-10-15", "2026-10-16", "2026-10-17",
     "2026-10-18"]
    [70, 71, 72, 73, 74, 75, 76] [50, 51, 52, 53, 54, 55, 56] [0, 1, 2, 3, 45, 61, 71]
    (by decide)
  exact h.trans (by rfl)
